import Mathlib

/-!
Verification of the job-submission / poll / retry / address-rotation engine
of `app.py` (FastAPI service driving two Gradio queue APIs with IPv6
source-address rotation).

The Python functions are shallowly embedded as executable Lean definitions.
String operations that Python performs (`.lower()`, `.strip()`, slicing,
`in`, `.startswith`, `.split('\n')`) are modelled character-list-wise, which
matches Python's code-point semantics on the ASCII data involved.  The two
remote HTTP exchanges themselves (the `requests` library and `json.loads`)
are external collaborators: their outcomes enter the embedding as explicit
inputs (a fault/response value per call, an abstract line decoder).
-/

namespace Ipv6App

/-! ### Python string primitives (character-wise, as Python slices/tests) -/

/-- Python `s[:n]` on a string: the first `n` characters. -/
def pyTake (s : String) (n : Nat) : String :=
  String.mk (s.data.take n)

/-- Python `s[n:]` on a string: drop the first `n` characters. -/
def pyDrop (s : String) (n : Nat) : String :=
  String.mk (s.data.drop n)

/-- Python `s.strip()` (whitespace on the ASCII data involved). -/
def pyStrip (s : String) : String :=
  String.mk (((s.data.dropWhile Char.isWhitespace).reverse.dropWhile Char.isWhitespace).reverse)

/-- Python `s.lower()` (ASCII). -/
def pyLower (s : String) : String :=
  String.mk (s.data.map Char.toLower)

/-- Python `s.startswith(pre)`. -/
def pyStartsWith (s pre : String) : Bool :=
  pre.data.isPrefixOf s.data

/-- Python `s.split(sep)` for a one-character separator. -/
def pySplitChar (s : String) (sep : Char) : List String :=
  (s.data.splitOn sep).map String.mk

/-- Boolean contiguous-sublist test, Python's `needle in haystack` on strings,
expressed on their character lists. -/
def listInfixOf (pat : List Char) : List Char → Bool
  | [] => pat.isEmpty
  | c :: rest => pat.isPrefixOf (c :: rest) || listInfixOf pat rest

/-- Python `needle in haystack` for strings. -/
def pyIn (needle haystack : String) : Bool :=
  listInfixOf needle.data haystack.data

/-! ### ErrorClassifier (app.py lines 127, 138, 185, 205)

The same keyword test appears verbatim four times in the source:
`any(kw in error_msg_lower for kw in ["cuda", "gpu", "quota", "capacity",
"load", "queue full", "too many requests", "rate limit"])`. -/

def resourceKeywords : List String :=
  ["cuda", "gpu", "quota", "capacity", "load", "queue full", "too many requests", "rate limit"]

/-- `any(kw in text.lower() for kw in resourceKeywords)`: decides whether an
error text is classified as a GPU-resource (ResourceExhausted) condition. -/
def isResourceError (text : String) : Bool :=
  resourceKeywords.any (fun kw => pyIn kw (pyLower text))

/-! ### Aspect-ratio table and render payload (app.py lines 90-95, 267-276) -/

def PREDEFINED_DIMENSIONS_MAP : List (String × Nat × Nat) :=
  [("1:1", 1024, 1024), ("16:9", 1344, 768), ("9:16", 768, 1344), ("4:3", 1152, 864)]

def DEFAULT_RANDOMIZE_SEED : Bool := true
def DEFAULT_GUIDANCE_SCALE : Rat := 3.5
def DEFAULT_INFERENCE_STEPS : Nat := 28

/-- `PREDEFINED_DIMENSIONS_MAP.get(aspect_ratio_key, PREDEFINED_DIMENSIONS_MAP["1:1"])`
(app.py line 267). -/
def dimensionsFor (aspect_ratio_key : String) : Nat × Nat :=
  (PREDEFINED_DIMENSIONS_MAP.lookup aspect_ratio_key).getD
    ((PREDEFINED_DIMENSIONS_MAP.lookup "1:1").getD (0, 0))

/-- A JSON-serialisable Python value appearing in the render payload. -/
inductive PyVal where
  | str (s : String)
  | num (n : Nat)
  | bool (b : Bool)
  | rat (q : Rat)
deriving DecidableEq

/-- `image_gen_payload` (app.py lines 268-276): prompt, random seed,
randomize-seed flag, width, height, guidance scale, inference steps. -/
def image_gen_payload (prompt_for_image : String) (seed : Nat) (aspect_ratio_key : String) :
    List PyVal :=
  [.str prompt_for_image,
   .num seed,
   .bool DEFAULT_RANDOMIZE_SEED,
   .num (dimensionsFor aspect_ratio_key).1,
   .num (dimensionsFor aspect_ratio_key).2,
   .rat DEFAULT_GUIDANCE_SCALE,
   .num DEFAULT_INFERENCE_STEPS]

/-! ### SessionTokenGenerator (app.py lines 98-99, 245, 277)

`random.choices('abcdefghijklmnopqrstuvwxyz0123456789', k=26)` draws 26
independent elements of the 36-character population.  The random source is
modelled as a stream `randChoice : Nat → Nat` of draws; draw `i` selects
population index `randChoice i % 36`, which ranges over exactly the
population.  Each call to the generator consumes the next 26 draws. -/

def sessionAlphabet : List Char :=
  "abcdefghijklmnopqrstuvwxyz0123456789".data

/-- `generate_session_hash()` (app.py lines 98-99), reading draws
`start, start+1, …, start+25` of the random stream. -/
def generate_session_hash (randChoice : Nat → Nat) (start : Nat) : String :=
  String.mk ((List.range 26).map (fun i => sessionAlphabet.getD (randChoice (start + i) % 36) 'A'))

/-- The two generator calls of one attempt (app.py lines 245 and 277): the
translate submission consumes draws 0-25; `random.randint` (line 270)
consumes `seedDraws` further draws; the render submission then consumes the
next 26. -/
def attempt_session_hashes (randChoice : Nat → Nat) (seedDraws : Nat) : String × String :=
  (generate_session_hash randChoice 0,
   generate_session_hash randChoice (26 + seedDraws))

/-! ### QueueClient submit fault handling (app.py lines 133-140) -/

/-- The three exception kinds `call_gradio_api_with_ipv6` and
`poll_gradio_sse_status` can raise towards the orchestrator:
`GPUQuotaError`, `ValueError`, `ConnectionError`. -/
inductive ApiError where
  | gpuQuota (msg : String)
  | valueErr (msg : String)
  | connErr (msg : String)
deriving DecidableEq

/-- Network-level outcome of the `requests.post` in
`call_gradio_api_with_ipv6`: a timeout or another `RequestException`
carrying `str(e)`. -/
inductive SubmitFault where
  | timeoutExc
  | reqExc (detail : String)
deriving DecidableEq

/-- The `except` clauses of `call_gradio_api_with_ipv6` (app.py lines
133-140): a timeout becomes a `ConnectionError` naming the base URL and the
90-second timeout; any other `RequestException` is keyword-classified and
becomes either a `GPUQuotaError` with the detail truncated to 150
characters or a `ConnectionError` with the detail truncated to 100. -/
def submitFaultError (base_url : String) : SubmitFault → ApiError
  | .timeoutExc =>
      .connErr ("Connection to " ++ base_url ++ " timed out after 90 seconds.")
  | .reqExc detail =>
      if isResourceError detail then
        .gpuQuota ("Server (GPU) resource limit encountered: " ++ pyTake detail 150)
      else
        .connErr ("Error connecting to " ++ base_url ++ ": " ++ pyTake detail 100)

/-! ### StatusPoller (app.py lines 142-212)

One poll cycle of the `while` loop in `poll_gradio_sse_status`.  The decoded
stream records live in a small JSON value domain; `json.loads` is an
external collaborator and enters as an abstract line decoder
`decode : String → Option Json` (`none` = `json.JSONDecodeError`). -/

inductive Json where
  | null
  | bool (b : Bool)
  | num (n : Int)
  | str (s : String)
  | arr (xs : List Json)
  | obj (kvs : List (String × Json))

/-- Python truthiness of a decoded JSON value (`None`, `False`, `0`, `""`,
`[]`, `{}` are falsy). -/
def jTruthy : Json → Bool
  | .null => false
  | .bool b => b
  | .num n => n != 0
  | .str s => !s.data.isEmpty
  | .arr xs => !xs.isEmpty
  | .obj kvs => !kvs.isEmpty

/-- Truthiness of `dict.get(key)`: a missing key yields `None`, which is
falsy. -/
def jTruthyOpt : Option Json → Bool
  | none => false
  | some j => jTruthy j

/-- Python `dict.get(key) == s` for a string literal `s`: true exactly when
the key is present with that string value. -/
def jIsStr (j : Option Json) (s : String) : Bool :=
  match j with
  | some (.str t) => t == s
  | _ => false

/-- What one matching `process_completed` / `queue_full` record makes the
loop body do before the `except` clauses intervene. -/
inductive EventAction where
  | ret (data : Json)
  | raiseQuota (msg : String)
  | raiseValue (msg : String)
  | raiseAttr

/-- The error-classification raise of the completed-without-success branch
(app.py lines 183-187). -/
def classifyCompletionError (service_name msg : String) : EventAction :=
  if isResourceError msg then
    .raiseQuota ("Processing " ++ service_name ++ " failed with resource error: " ++ msg)
  else
    .raiseValue ("Processing " ++ service_name ++ " failed: " ++ msg)

/-- The `else` branch of the completed case (app.py lines 182-187):
`event_data.get("output", {}).get("error", f"Unknown error in {service_name} completion.")`,
then keyword classification.  A present non-dict `output`, or a non-string
`error` value, raises `AttributeError` (`.get` / `.lower()` on the wrong
type). -/
def completedFailure (service_name : String) (output : Option Json) : EventAction :=
  match output with
  | none => classifyCompletionError service_name
      ("Unknown error in " ++ service_name ++ " completion.")
  | some (.obj okvs) =>
      match okvs.lookup "error" with
      | none => classifyCompletionError service_name
          ("Unknown error in " ++ service_name ++ " completion.")
      | some (.str w) => classifyCompletionError service_name w
      | some _ => .raiseAttr
  | some _ => .raiseAttr

/-- The `process_completed` case (app.py lines 178-187):
`event_data.get("success") and event_data.get("output") and event_data.get("output").get("data")`
with Python truthiness and short-circuiting; on success return
`event_data["output"]["data"]`, otherwise run the failure branch. -/
def processCompleted (service_name : String) (kvs : List (String × Json)) : EventAction :=
  if jTruthyOpt (kvs.lookup "success") then
    match kvs.lookup "output" with
    | some (.obj okvs) =>
        if !(List.isEmpty okvs) then
          match okvs.lookup "data" with
          | some d => if jTruthy d then .ret d else completedFailure service_name (some (.obj okvs))
          | none => completedFailure service_name (some (.obj okvs))
        else completedFailure service_name (some (.obj okvs))
    | some o => if jTruthy o then .raiseAttr else completedFailure service_name (some o)
    | none => completedFailure service_name none
  else completedFailure service_name (kvs.lookup "output")

/-- The `for event_data in processed_events` loop (app.py lines 176-194):
skip records whose `event_id` does not equal the awaited handle, act on the
first matching `process_completed` or `queue_full` record
(`process_generating` only logs), and raise `AttributeError` on a decoded
non-dict record (`.get` on it). -/
def scanEvents (event_id service_name : String) : List Json → Option EventAction
  | [] => none
  | e :: rest =>
      match e with
      | .obj kvs =>
          if jIsStr (kvs.lookup "event_id") event_id then
            if jIsStr (kvs.lookup "msg") "process_completed" then
              some (processCompleted service_name kvs)
            else if jIsStr (kvs.lookup "msg") "queue_full" then
              some (.raiseQuota ("Queue for " ++ service_name ++ " is full."))
            else
              scanEvents event_id service_name rest
          else
            scanEvents event_id service_name rest
      | _ => some .raiseAttr

/-- Line filtering and decoding (app.py lines 162-173): keep the lines
prefixed `data:`, decode the stripped remainder, drop undecodable lines. -/
def processedEvents (decode : String → Option Json) (lines : List String) : List Json :=
  lines.filterMap (fun l =>
    if pyStartsWith l "data:" then decode (pyStrip (pyDrop l 5)) else none)

/-- Network-level outcome of the `s.get` of one poll cycle. -/
inductive CycleInput where
  | ok (text : String)
  | timeoutExc
  | reqExc (detail : String)

/-- What one poll cycle does: return the output data, raise towards the
caller, or sleep (2 or 5 seconds) and run another cycle. -/
inductive CycleResult where
  | ret (data : Json)
  | raiseErr (e : ApiError)
  | continueSleep (secs : Nat)

/-- One iteration of the polling `while` loop (app.py lines 156-210),
including its `except` clauses.  A `requests` timeout sleeps 5 and
continues; another `RequestException` is keyword-classified and raised from
its handler (these raises do escape); and — decisive for the error
contract — any exception raised *inside* the `try` block by the record
handling (`GPUQuotaError` at lines 186/194, `ValueError` at 187,
`AttributeError`) is caught by the final `except Exception` (line 208),
which sleeps 5 and lets the loop continue. -/
def pollCycle (decode : String → Option Json) (event_id service_name : String) :
    CycleInput → CycleResult
  | .timeoutExc => .continueSleep 5
  | .reqExc detail =>
      if isResourceError detail then
        .raiseErr (.gpuQuota ("Polling " ++ service_name ++ " failed with resource error: " ++
          pyTake detail 150))
      else
        .raiseErr (.connErr ("Error during polling " ++ service_name ++ ": " ++
          pyTake detail 100))
  | .ok text =>
      match scanEvents event_id service_name
          (processedEvents decode (pySplitChar (pyStrip text) '\n')) with
      | some (.ret d) => .ret d
      | some (.raiseQuota _) => .continueSleep 5
      | some (.raiseValue _) => .continueSleep 5
      | some .raiseAttr => .continueSleep 5
      | none => .continueSleep 2

/-! ### Source-address binding (app.py lines 113-117, 148-149)

`if source_ip and source_ip in IPV6_ADDRESSES:` — the adapter is mounted
only for a truthy address that is in the loaded pool; `None` (and the empty
string) use default routing. -/

def usesSourceBinding (source_ip : Option String) (ipv6_addresses : List String) : Bool :=
  match source_ip with
  | none => false
  | some ip => !ip.data.isEmpty && ipv6_addresses.contains ip

/-! ### RotationOrchestrator (app.py lines 216-321)

`start_full_process_with_ipv6_rotation`.  The whole `try` body of one
attempt (translate submit + poll, render submit + poll, URL extraction) is
driven by external services, so its outcome enters as an oracle
`attemptResult : Option String → Nat → AttemptOutcome` giving, per
(source address, retry index), either the final image URL, a raised
`GPUQuotaError`, or any other raised exception.

Fidelity note: the source file never imports `asyncio`, so the
`await asyncio.sleep(2)` at line 314 — reached exactly when a
non-`GPUQuotaError` attempt fails and `retry_count < max_retries_per_ip - 1`
— raises `NameError` from within the `except` handler, which no enclosing
handler in this function catches: the run aborts.  The embedding records
this as `RunResult.uncaughtNameError`. -/

/-- Result of one full `try` body of the inner retry loop. -/
inductive AttemptOutcome where
  | success (imageUrl : String)
  | quotaError (msg : String)
  | otherError (msg : String)

def max_retries_per_ip : Nat := 2

def successMessage : String := "تصویر با موفقیت ساخته شد."

def allFailedMessage : String :=
  "تمام تلاش‌ها برای تولید تصویر به دلیل محدودیت‌های سرور یا خطاهای پایدار شکست خوردند."

/-- Terminal value of `start_full_process_with_ipv6_rotation`: the success
dict, the all-attempts-failed dict, or the `NameError` escaping the
function (surfaced by the endpoint as a 500 response). -/
inductive RunResult where
  | success (imageUrl message : String)
  | failure (error : String)
  | uncaughtNameError
deriving DecidableEq

/-- How the inner `for retry_count in range(max_retries_per_ip)` loop ends:
with the whole run finished (a `return` or an escaping exception), or by
falling to the next address of the `while` loop (a `break` or loop end). -/
inductive InnerOutcome where
  | finished (r : RunResult)
  | toNextIp

/-- The body of the inner retry loop at a given `retry_count` (app.py lines
240-318), together with the list of attempts `(address, retry index)` that
actually executed.  On `GPUQuotaError`: `break`.  On any other exception:
if retries remain, line 314 evaluates `asyncio.sleep` — a `NameError`,
since `asyncio` is unimported — and the run aborts; otherwise `break`. -/
def attemptLoop (attemptResult : Option String → Nat → AttemptOutcome)
    (ip : Option String) (retry_count : Nat) :
    InnerOutcome × List (Option String × Nat) :=
  if retry_count < max_retries_per_ip then
    match attemptResult ip retry_count with
    | .success url => (.finished (.success url successMessage), [(ip, retry_count)])
    | .quotaError _ => (.toNextIp, [(ip, retry_count)])
    | .otherError _ =>
        if retry_count < max_retries_per_ip - 1 then
          (.finished .uncaughtNameError, [(ip, retry_count)])
        else
          (.toNextIp, [(ip, retry_count)])
  else (.toNextIp, [])

/-- The outer `while available_ips_for_this_run:` loop (app.py lines
232-318): pop the first address, run the retry loop on it, and on
`toNextIp` continue with the remaining addresses; an empty pool returns the
all-failed dict (line 321). -/
def rotationLoop (attemptResult : Option String → Nat → AttemptOutcome) :
    List (Option String) → RunResult × List (Option String × Nat)
  | [] => (.failure allFailedMessage, [])
  | ip :: rest =>
      match attemptLoop attemptResult ip 0 with
      | (.finished r, t) => (r, t)
      | (.toNextIp, t) =>
          let next := rotationLoop attemptResult rest
          (next.1, t ++ next.2)

/-- `start_full_process_with_ipv6_rotation` (app.py lines 216-321):
snapshot the pool (`list(IPV6_ADDRESSES)`), substitute `[None]` when it is
empty, and run the rotation loop.  The second component is the trace of
executed attempts. -/
def start_full_process_with_ipv6_rotation
    (attemptResult : Option String → Nat → AttemptOutcome)
    (ipv6_addresses : List String) :
    RunResult × List (Option String × Nat) :=
  let available_ips_for_this_run : List (Option String) := ipv6_addresses.map some
  let available := if available_ips_for_this_run.isEmpty then [none]
                   else available_ips_for_this_run
  rotationLoop attemptResult available

/-! ## Supporting lemmas -/

theorem listInfixOf_iff (pat : List Char) (l : List Char) :
    listInfixOf pat l = true ↔ pat <:+: l := by
  induction l with
  | nil =>
    simp [listInfixOf, List.isEmpty_iff]
  | cons c rest ih =>
    simp [listInfixOf, List.infix_cons_iff, List.isPrefixOf_iff_prefix, ih]

theorem pyIn_iff (needle haystack : String) :
    pyIn needle haystack = true ↔ needle.data <:+: haystack.data :=
  listInfixOf_iff _ _

theorem pyTake_length_le (s : String) (n : Nat) : (pyTake s n).length ≤ n := by
  show (s.data.take n).length ≤ n
  rw [List.length_take]
  exact min_le_left _ _

theorem attemptLoop_trace (attemptResult : Option String → Nat → AttemptOutcome)
    (ip : Option String) : (attemptLoop attemptResult ip 0).2 = [(ip, 0)] := by
  cases h : attemptResult ip 0 <;> simp [attemptLoop, h, max_retries_per_ip]

theorem rotationLoop_trace_take (attemptResult : Option String → Nat → AttemptOutcome) :
    ∀ l : List (Option String),
      ∃ k, (rotationLoop attemptResult l).2.map Prod.fst = l.take k := by
  intro l
  induction l with
  | nil => exact ⟨0, rfl⟩
  | cons ip rest ih =>
    obtain ⟨k, hk⟩ := ih
    have htr := attemptLoop_trace attemptResult ip
    cases h : attemptLoop attemptResult ip 0 with
    | mk o t =>
      rw [h] at htr
      have htr' : t = [(ip, 0)] := by simpa using htr
      cases o with
      | finished r =>
        refine ⟨1, ?_⟩
        simp [rotationLoop, h, htr']
      | toNextIp =>
        refine ⟨k + 1, ?_⟩
        simp [rotationLoop, h, htr', hk]

theorem sessionAlphabet_getD_mem (n : Nat) :
    sessionAlphabet.getD (n % 36) 'A' ∈ sessionAlphabet := by
  have h : n % 36 < sessionAlphabet.length := by
    have h36 : sessionAlphabet.length = 36 := rfl
    rw [h36]
    exact Nat.mod_lt _ (by norm_num)
  rw [List.getD_eq_getElem _ _ h]
  exact List.getElem_mem h

theorem generate_session_hash_length (randChoice : Nat → Nat) (start : Nat) :
    (generate_session_hash randChoice start).length = 26 := by
  show ((List.range 26).map _).length = 26
  simp

theorem generate_session_hash_alphabet (randChoice : Nat → Nat) (start : Nat) :
    (generate_session_hash randChoice start).data.all
      (fun c => sessionAlphabet.contains c) = true := by
  have hdata : (generate_session_hash randChoice start).data =
      (List.range 26).map (fun i => sessionAlphabet.getD (randChoice (start + i) % 36) 'A') :=
    rfl
  rw [hdata]
  simp only [List.all_eq_true, List.mem_map]
  rintro c ⟨i, -, rfl⟩
  simpa using sessionAlphabet_getD_mem (randChoice (start + i))

/-! ## The claims -/

/-- Claim C1 (code-bug evidence).  The claim says a Logical/Transport
failure with attempts remaining makes the orchestrator wait 2 seconds and
retry on the same address, so 2 attempts occur before rotation.  In the
source, `asyncio` is never imported, so the `await asyncio.sleep(2)` at
line 314 raises `NameError` from inside the `except` handler: on a pool of
one address whose every attempt fails with a transport error, exactly one
attempt executes and the whole run aborts with the uncaught `NameError`
instead of retrying or rotating. -/
theorem c1_missing_asyncio_aborts_after_one_attempt :
    start_full_process_with_ipv6_rotation
        (fun _ _ => .otherError "Connection reset by peer") ["2001:db8::1"] =
      (.uncaughtNameError, [(some "2001:db8::1", 0)]) := rfl

/-- Claim C3: a first attempt on an address classified `GPUQuotaError`
(ResourceExhausted) makes the orchestrator record exactly that one attempt
on the address and continue the rotation loop with the remaining addresses:
the retry budget is not consumed further. -/
theorem c3_resource_exhausted_rotates_immediately
    (attemptResult : Option String → Nat → AttemptOutcome)
    (ip : Option String) (rest : List (Option String)) (m : String)
    (h : attemptResult ip 0 = .quotaError m) :
    rotationLoop attemptResult (ip :: rest) =
      ((rotationLoop attemptResult rest).1,
       (ip, 0) :: (rotationLoop attemptResult rest).2) := by
  simp [rotationLoop, attemptLoop, h, max_retries_per_ip]

/-- Witness for C3 at a concrete pool and outcome. -/
theorem c3_resource_exhausted_rotates_immediately_witness :
    rotationLoop (fun _ _ => .quotaError "quota exceeded")
        [some "2001:db8::1", some "2001:db8::2"] =
      ((rotationLoop (fun _ _ => .quotaError "quota exceeded") [some "2001:db8::2"]).1,
       (some "2001:db8::1", 0) ::
         (rotationLoop (fun _ _ => .quotaError "quota exceeded") [some "2001:db8::2"]).2) :=
  c3_resource_exhausted_rotates_immediately _ _ _ "quota exceeded" rfl

/-- Claim C4: within one run over a non-empty pool, the addresses appearing
in the attempt trace are exactly an initial segment of the pool snapshot in
its given order — each address is visited at most once and never
revisited. -/
theorem c4_addresses_visited_in_order_at_most_once
    (attemptResult : Option String → Nat → AttemptOutcome)
    (pool : List String) (h : pool ≠ []) :
    ∃ k, (start_full_process_with_ipv6_rotation attemptResult pool).2.map Prod.fst =
      (pool.map some).take k := by
  have hne : (pool.map some).isEmpty = false := by
    simp [List.isEmpty_iff, h]
  simp only [start_full_process_with_ipv6_rotation, hne, if_neg Bool.false_ne_true]
  exact rotationLoop_trace_take _ _

/-- Witness for C4 at a concrete pool and outcome. -/
theorem c4_addresses_visited_in_order_at_most_once_witness :
    ∃ k, (start_full_process_with_ipv6_rotation (fun _ _ => .otherError "boom")
        ["2001:db8::1", "2001:db8::2"]).2.map Prod.fst =
      (["2001:db8::1", "2001:db8::2"].map some).take k :=
  c4_addresses_visited_in_order_at_most_once _ _ (by simp)

/-- Claim C5: with an empty pool the run substitutes the `[None]` sentinel
list and the pipeline executes exactly one attempt, with default routing
(`None` never mounts the source-address adapter), whatever the attempt
outcome is. -/
theorem c5_empty_pool_still_runs_once_with_default_routing
    (attemptResult : Option String → Nat → AttemptOutcome) (loaded : List String) :
    (start_full_process_with_ipv6_rotation attemptResult []).2 = [(none, 0)] ∧
    usesSourceBinding none loaded = false := by
  refine ⟨?_, rfl⟩
  cases h : attemptResult none 0 <;>
    simp [start_full_process_with_ipv6_rotation, rotationLoop, attemptLoop, h,
      max_retries_per_ip]

/-- A concrete `queue_full` record for the awaited handle `e1`, its stream
line, and a decoder for it. -/
def qfRecord : Json := .obj [("msg", .str "queue_full"), ("event_id", .str "e1")]

def qfLine : String := "data: \x7b\"msg\": \"queue_full\", \"event_id\": \"e1\"\x7d"

def qfDecode : String → Option Json := fun s =>
  if s = "\x7b\"msg\": \"queue_full\", \"event_id\": \"e1\"\x7d" then some qfRecord else none

/-- A concrete completed-without-success record whose error text is
resource-classified, its stream line, and a decoder for it. -/
def cfRecord : Json := .obj [("event_id", .str "e1"), ("msg", .str "process_completed"),
  ("success", .bool false), ("output", .obj [("error", .str "CUDA out of memory")])]

def cfLine : String := "data: failrec"

def cfDecode : String → Option Json := fun s => if s = "failrec" then some cfRecord else none

/-- Claim C2 (code-bug evidence).  The claim says a terminal failure record
makes the await call itself fail and the poll loop stop.  In the source the
`GPUQuotaError` / `ValueError` raised for such records at lines 186/187/194
are raised inside the `try` block and caught by the same function's final
`except Exception` (line 208), which sleeps 5 seconds and lets the loop
continue.  Concretely: the record scan of a matching `queue_full` record
(and of a resource-classified failed completion) does construct the raise,
yet the poll cycle ends in `continueSleep 5`, not in a raised error. -/
theorem c2_terminal_failure_records_are_swallowed :
    scanEvents "e1" "Translator" (processedEvents qfDecode [qfLine]) =
        some (.raiseQuota "Queue for Translator is full.") ∧
    pollCycle qfDecode "e1" "Translator" (.ok qfLine) = .continueSleep 5 ∧
    scanEvents "e1" "Translator" (processedEvents cfDecode [cfLine]) =
        some (.raiseQuota
          "Processing Translator failed with resource error: CUDA out of memory") ∧
    pollCycle cfDecode "e1" "Translator" (.ok cfLine) = .continueSleep 5 :=
  ⟨rfl, rfl, rfl, rfl⟩

/-- Claim C6: submit-side network faults.  A timeout becomes a
`ConnectionError` whose message contains the base URL and the 90-second
duration; any other `RequestException` becomes a `GPUQuotaError` with a
diagnostic of at most 150 characters when the fault text matches the
resource keywords, and otherwise a `ConnectionError` with a diagnostic of
at most 100 characters. -/
theorem c6_submit_fault_classification (base_url detail : String) :
    (submitFaultError base_url .timeoutExc =
        .connErr ("Connection to " ++ base_url ++ " timed out after 90 seconds.") ∧
      base_url.data <:+:
        ("Connection to " ++ base_url ++ " timed out after 90 seconds.").data ∧
      "90 seconds".data <:+:
        ("Connection to " ++ base_url ++ " timed out after 90 seconds.").data) ∧
    (isResourceError detail = true →
      submitFaultError base_url (.reqExc detail) =
        .gpuQuota ("Server (GPU) resource limit encountered: " ++ pyTake detail 150) ∧
      (pyTake detail 150).length ≤ 150) ∧
    (isResourceError detail = false →
      submitFaultError base_url (.reqExc detail) =
        .connErr ("Error connecting to " ++ base_url ++ ": " ++ pyTake detail 100) ∧
      (pyTake detail 100).length ≤ 100) := by
  refine ⟨⟨rfl, ?_, ?_⟩, fun h => ⟨?_, pyTake_length_le _ _⟩, fun h => ⟨?_, pyTake_length_le _ _⟩⟩
  · exact ⟨"Connection to ".data, " timed out after 90 seconds.".data, by
      simp [String.data_append]⟩
  · refine ⟨("Connection to " ++ base_url ++ " timed out after ").data, ".".data, ?_⟩
    simp only [String.data_append, List.append_assoc]
    exact congrArg (fun l => "Connection to ".data ++ (base_url.data ++ l)) rfl
  · simp [submitFaultError, h]
  · simp [submitFaultError, h]

/-- Witness for C6 at concrete inputs on both classification branches. -/
theorem c6_submit_fault_classification_witness :
    submitFaultError "https://hf.space" (.reqExc "gpu quota hit") =
      .gpuQuota ("Server (GPU) resource limit encountered: " ++ pyTake "gpu quota hit" 150) ∧
    submitFaultError "https://hf.space" (.reqExc "connection reset") =
      .connErr ("Error connecting to " ++ "https://hf.space" ++ ": " ++
        pyTake "connection reset" 100) :=
  ⟨((c6_submit_fault_classification "https://hf.space" "gpu quota hit").2.1 (by decide)).1,
   ((c6_submit_fault_classification "https://hf.space" "connection reset").2.2 (by decide)).1⟩

/-- Claim C7: the render payload's width (index 3) and height (index 4)
come from the fixed aspect-ratio table; `"9:16"` yields exactly 768×1344,
and any key absent from the table falls back to the square 1024×1024
entry. -/
theorem c7_aspect_ratio_dimensions (prompt_for_image : String) (seed : Nat)
    (aspect_ratio_key : String)
    (h : PREDEFINED_DIMENSIONS_MAP.lookup aspect_ratio_key = none) :
    (∀ key, (image_gen_payload prompt_for_image seed key).get? 3 =
        some (.num (dimensionsFor key).1) ∧
      (image_gen_payload prompt_for_image seed key).get? 4 =
        some (.num (dimensionsFor key).2)) ∧
    dimensionsFor "9:16" = (768, 1344) ∧
    (image_gen_payload prompt_for_image seed "9:16").get? 3 = some (.num 768) ∧
    (image_gen_payload prompt_for_image seed "9:16").get? 4 = some (.num 1344) ∧
    dimensionsFor aspect_ratio_key = (1024, 1024) ∧
    (image_gen_payload prompt_for_image seed aspect_ratio_key).get? 3 = some (.num 1024) ∧
    (image_gen_payload prompt_for_image seed aspect_ratio_key).get? 4 = some (.num 1024) := by
  have h916 : dimensionsFor "9:16" = (768, 1344) := rfl
  have hk : dimensionsFor aspect_ratio_key = (1024, 1024) := by
    unfold dimensionsFor
    rw [h]
    rfl
  exact ⟨fun key => ⟨rfl, rfl⟩, h916, rfl, rfl, hk,
    by simp [image_gen_payload, hk], by simp [image_gen_payload, hk]⟩

/-- Witness for C7 with the unrecognized key `"2:3"`. -/
theorem c7_aspect_ratio_dimensions_witness :
    (∀ key, (image_gen_payload "x" 0 key).get? 3 = some (.num (dimensionsFor key).1) ∧
      (image_gen_payload "x" 0 key).get? 4 = some (.num (dimensionsFor key).2)) ∧
    dimensionsFor "9:16" = (768, 1344) ∧
    (image_gen_payload "x" 0 "9:16").get? 3 = some (.num 768) ∧
    (image_gen_payload "x" 0 "9:16").get? 4 = some (.num 1344) ∧
    dimensionsFor "2:3" = (1024, 1024) ∧
    (image_gen_payload "x" 0 "2:3").get? 3 = some (.num 1024) ∧
    (image_gen_payload "x" 0 "2:3").get? 4 = some (.num 1024) :=
  c7_aspect_ratio_dimensions "x" 0 "2:3" rfl

/-- Claim C8: in one poll cycle over a response made of a data-prefixed
line that fails to decode followed by a data-prefixed line decoding to a
valid successful `process_completed` record for the awaited handle, the
malformed line is discarded and the cycle returns the completion's output
data. -/
theorem c8_malformed_line_skipped_completion_honored
    (decode : String → Option Json) (event_id service_name l1 l2 : String)
    (kvs okvs : List (String × Json)) (d : Json)
    (h1 : pyStartsWith l1 "data:" = true)
    (h2 : decode (pyStrip (pyDrop l1 5)) = none)
    (h3 : pyStartsWith l2 "data:" = true)
    (h4 : decode (pyStrip (pyDrop l2 5)) = some (.obj kvs))
    (h5 : kvs.lookup "event_id" = some (.str event_id))
    (h6 : kvs.lookup "msg" = some (.str "process_completed"))
    (h7 : kvs.lookup "success" = some (.bool true))
    (h8 : kvs.lookup "output" = some (.obj okvs))
    (h9 : okvs.isEmpty = false)
    (h10 : okvs.lookup "data" = some d)
    (h11 : jTruthy d = true)
    (h12 : pySplitChar (pyStrip (l1 ++ "\n" ++ l2)) '\n' = [l1, l2]) :
    pollCycle decode event_id service_name (.ok (l1 ++ "\n" ++ l2)) = .ret d := by
  simp [pollCycle, h12, processedEvents, h1, h2, h3, h4, scanEvents, h5, h6, jIsStr,
    processCompleted, h7, jTruthyOpt, h8, h9, h10, h11,
    show jTruthy (Json.bool true) = true from rfl]

/-- A valid successful completion record for handle `e2`, and a decoder for
the C8 witness. -/
def c8OkKvs : List (String × Json) :=
  [("event_id", .str "e2"), ("msg", .str "process_completed"),
   ("success", .bool true), ("output", .obj [("data", .arr [.str "ok"])])]

def c8Decode : String → Option Json := fun s =>
  if s = "goodrec" then some (.obj c8OkKvs) else none

/-- Witness for C8: the concrete two-line response of the claim's
scenario. -/
theorem c8_malformed_line_skipped_completion_honored_witness :
    pollCycle c8Decode "e2" "ImageGenerator" (.ok ("data: notjson" ++ "\n" ++ "data: goodrec")) =
      .ret (.arr [.str "ok"]) :=
  c8_malformed_line_skipped_completion_honored c8Decode "e2" "ImageGenerator"
    "data: notjson" "data: goodrec" c8OkKvs [("data", .arr [.str "ok"])] (.arr [.str "ok"])
    rfl rfl rfl rfl rfl rfl rfl rfl rfl rfl rfl rfl

/-- Claim C9: the error classification is a pure function of the error
text — classifying twice gives the same answer — and it reports
ResourceExhausted exactly when some keyword of the fixed list occurs as a
substring of the lowercased text. -/
theorem c9_classifier_deterministic_substring (text : String) :
    isResourceError text = isResourceError text ∧
    (isResourceError text = true ↔
      ∃ kw ∈ resourceKeywords, kw.data <:+: (pyLower text).data) := by
  refine ⟨rfl, ?_⟩
  simp only [isResourceError, List.any_eq_true, pyIn_iff]

/-- Claim C10: both session tokens generated inside one attempt — one for
the translate submission, one for the render submission, drawn from
disjoint segments of the random stream — are strings of exactly 26
characters over `a`-`z`/`0`-`9`, and the two invocations are genuinely
independent: some random stream gives the two calls different tokens. -/
theorem c10_session_hash_format_and_freshness (randChoice : Nat → Nat) (seedDraws : Nat) :
    (attempt_session_hashes randChoice seedDraws).1.length = 26 ∧
    (attempt_session_hashes randChoice seedDraws).2.length = 26 ∧
    (attempt_session_hashes randChoice seedDraws).1.data.all
      (fun c => sessionAlphabet.contains c) = true ∧
    (attempt_session_hashes randChoice seedDraws).2.data.all
      (fun c => sessionAlphabet.contains c) = true ∧
    (∃ r, (attempt_session_hashes r 0).1 ≠ (attempt_session_hashes r 0).2) := by
  refine ⟨generate_session_hash_length _ _, generate_session_hash_length _ _,
    generate_session_hash_alphabet _ _, generate_session_hash_alphabet _ _,
    ⟨fun i => if i < 26 then 0 else 1, by decide⟩⟩

end Ipv6App
